import Mathlib

/-!
Verification of the Jarvis MVP risk rule engine.

Shallow embedding of the rule evaluation and alert-suppression core:
  - `src/config.py`        : thresholds, per-rule cooldown map, score tiers
  - `src/rule_engine.py`   : the four detection rules, the cooldown tracker
                             (`_should_alert` / `_update_last_alert_time`)
                             and the alert factory (`_create_alert`)
  - `src/binance_client.py`: the liquidation-distance enrichment
  - `src/telegram_bot.py`  : `_calculate_discipline_score`

Conventions of the embedding:
  - Python `float` values (prices, percentages, timestamps) are modelled as
    `ℚ`; `datetime` instants are modelled as a rational number of seconds, so
    `(a - b).total_seconds()` becomes plain subtraction.
  - A Python dict used as a keyed map (`self.last_alert_times`,
    `ALERT_COOLDOWNS`) is modelled as an association list where an update
    conses to the front and lookup takes the first hit, which gives exactly
    the latest-write-wins semantics of the dict.
  - A position dict with optional keys becomes a structure of `Option`
    fields; every `position.get(k, d)` in the source becomes `(field).getD d`.
  - `datetime.utcnow()` is an injected `now : ℚ` parameter (the spec's Clock).
  - Display-only alert fields (`alert_id`, `rule_name`, `emoji`, the
    f-string `message`/`suggestion` texts, and the raw `position_snapshot`)
    are not modelled as strings; the numeric payloads that the f-strings
    interpolate are kept exactly in the structured `Suggestion` / `Details`
    fields instead.
-/

namespace Jarvis

/-- The engine's cooldown state: `self.last_alert_times`, a dict from the
string key `f"{rule_type}:{symbol}"` to the timestamp of the last alert. -/
abbrev CState := List (String × ℚ)

/-- The configuration fields of `config.Settings` that the rule engine
reads (defaults as in `src/config.py`). -/
structure Settings where
  MAX_RISK_PCT : ℚ
  MIN_LIQ_DISTANCE_PCT : ℚ
  REVENGE_WINDOW_MINUTES : Int
  ALERT_COOLDOWNS : List (String × Int)
deriving DecidableEq

/-- The default `Settings()` instance of `src/config.py`. -/
def defaultSettings : Settings :=
  { MAX_RISK_PCT := 2
    MIN_LIQ_DISTANCE_PCT := 5
    REVENGE_WINDOW_MINUTES := 15
    ALERT_COOLDOWNS := [("high_risk", 300), ("liq_risk", 180), ("no_sl", 600), ("revenge", 900)] }

/-- Python `d.get(key, default)` on a string-keyed dict modelled as an
association list (first hit wins). -/
def dictGet {α : Type} : List (String × α) → String → α → α
  | [], _, d => d
  | (k, v) :: rest, key, d => if k = key then v else dictGet rest key d

/-- Lookup in `self.last_alert_times` (`key in dict` plus indexing). -/
def lookupTime : CState → String → Option ℚ
  | [], _ => none
  | (k, t) :: rest, key => if k = key then some t else lookupTime rest key

/-- The cooldown key `f"{rule_type}:{symbol}"`. -/
def mkKey (rule_type symbol : String) : String := rule_type ++ ":" ++ symbol

/-- `RuleEngine._should_alert` (src/rule_engine.py lines 245-262): true iff
enough time has passed since the last alert for this (rule, symbol) key. -/
def should_alert (st : CState) (s : Settings) (now : ℚ) (rule_type symbol : String) : Bool :=
  let key := mkKey rule_type symbol
  let cooldown : Int := dictGet s.ALERT_COOLDOWNS rule_type 300
  match lookupTime st key with
  | some last_time => if now - last_time < (cooldown : ℚ) then false else true
  | none => true

/-- `RuleEngine._update_last_alert_time` (src/rule_engine.py lines 264-267). -/
def update_last_alert_time (st : CState) (now : ℚ) (rule_type symbol : String) : CState :=
  (mkKey rule_type symbol, now) :: st

/-- A position snapshot dict. Keys read via `position.get(k, default)` are
`Option` fields (`none` = key absent). `symbol` is a plain `String`: the
snapshots built by `_enrich_position` always carry it, and the one place a
symbol-less dict `{}` reaches the engine (the revenge check) only ever reads
it through `position.get('symbol', '')`, which `""` models. -/
structure Position where
  symbol : String
  side : Option String
  side_normalized : Option String
  entry_price : Option ℚ
  risk_pct : Option ℚ
  liq_distance_pct : Option ℚ
  has_stop_loss : Option Bool
deriving DecidableEq

/-- The empty dict `{}` passed as `position` by the revenge check. -/
def emptyPosition : Position :=
  { symbol := ""
    side := none
    side_normalized := none
    entry_price := none
    risk_pct := none
    liq_distance_pct := none
    has_stop_loss := none }

/-- Structured form of the `suggestion` f-strings passed to `_create_alert`:
the exact numeric payloads replace their decimal formatting. -/
inductive Suggestion where
  | empty : Suggestion
  | reduceSize (reduction_pct : ℚ) : Suggestion
  | addMargin : Suggestion
  | setStopLoss (sl_price : ℚ) (risk_pct : ℚ) : Suggestion
deriving DecidableEq

/-- Structured form of the `details` dict passed to `_create_alert` by the
revenge check. -/
inductive Details where
  | empty : Details
  | quickReentry (recent_losses : Nat) (minutes_since_last_loss : Int) : Details
  | highFrequency (trade_count : Nat) (timeframe : String) : Details
deriving DecidableEq

/-- The alert record assembled by `RuleEngine._create_alert`
(src/rule_engine.py lines 195-243), restricted to the non-display fields;
each position-derived field keeps the source's `.get` default. -/
structure Alert where
  rule_type : String
  severity : String
  pattern_type : String
  suggestion : Suggestion
  details : Details
  symbol : String
  side : String
  entry_price : ℚ
  risk_pct : ℚ
  liq_distance_pct : ℚ
  has_stop_loss : Bool
  triggered_at : ℚ
deriving DecidableEq

/-- `RuleEngine._create_alert`: builds the alert record and, as its terminal
side effect, records the firing time under the (rule, symbol) cooldown key. -/
def create_alert (st : CState) (now : ℚ) (rule_type : String) (position : Position)
    (suggestion : Suggestion) (pattern_type : String) (details : Details)
    (severity : String) : Alert × CState :=
  ({ rule_type := rule_type
     severity := severity
     pattern_type := pattern_type
     suggestion := suggestion
     details := details
     symbol := position.symbol
     side := position.side_normalized.getD ""
     entry_price := position.entry_price.getD 0
     risk_pct := position.risk_pct.getD 0
     liq_distance_pct := position.liq_distance_pct.getD 0
     has_stop_loss := position.has_stop_loss.getD false
     triggered_at := now },
   update_last_alert_time st now rule_type position.symbol)

/-- `RuleEngine.check_high_risk` (src/rule_engine.py lines 111-137): fires
when `risk_pct > MAX_RISK_PCT` and the cooldown permits. Returns the
optional alert together with the engine state after the call. -/
def check_high_risk (s : Settings) (st : CState) (now : ℚ) (p : Position) :
    Option Alert × CState :=
  let risk_pct := p.risk_pct.getD 0
  if risk_pct > s.MAX_RISK_PCT then
    if should_alert st s now "high_risk" p.symbol then
      let reduction_pct := (risk_pct - s.MAX_RISK_PCT) / risk_pct * 100
      let r := create_alert st now "high_risk" p (.reduceSize reduction_pct) "" .empty "warning"
      (some r.1, r.2)
    else (none, st)
  else (none, st)

/-- `RuleEngine.check_liquidation_risk` (src/rule_engine.py lines 139-160):
fires when `liq_distance_pct < MIN_LIQ_DISTANCE_PCT` and the cooldown
permits. -/
def check_liquidation_risk (s : Settings) (st : CState) (now : ℚ) (p : Position) :
    Option Alert × CState :=
  let liq_distance := p.liq_distance_pct.getD 999
  if liq_distance < s.MIN_LIQ_DISTANCE_PCT then
    if should_alert st s now "liq_risk" p.symbol then
      let r := create_alert st now "liq_risk" p .addMargin "" .empty "critical"
      (some r.1, r.2)
    else (none, st)
  else (none, st)

/-- The suggested stop price of `check_no_stop_loss`
(src/rule_engine.py lines 175-183): directional from the position's own
risk, with the source's `.get` defaults. -/
def suggested_sl_price (p : Position) : ℚ :=
  let risk_pct := p.risk_pct.getD 2
  let entry_price := p.entry_price.getD 0
  let side := p.side.getD "Long"
  if side = "Long" then entry_price * (1 - risk_pct / 100)
  else entry_price * (1 + risk_pct / 100)

/-- `RuleEngine.check_no_stop_loss` (src/rule_engine.py lines 162-193):
fires when `has_stop_loss` is absent or false and the cooldown permits. -/
def check_no_stop_loss (s : Settings) (st : CState) (now : ℚ) (p : Position) :
    Option Alert × CState :=
  let has_sl := p.has_stop_loss.getD false
  if has_sl = false then
    if should_alert st s now "no_sl" p.symbol then
      let r := create_alert st now "no_sl" p
        (.setStopLoss (suggested_sl_price p) (p.risk_pct.getD 2)) "" .empty "warning"
      (some r.1, r.2)
    else (none, st)
  else (none, st)

/-- A closed-trade record as normalized by `BinanceClient.get_recent_trades`:
only the fields the revenge check reads. -/
structure Trade where
  is_win : Bool
  closed_time : ℚ
deriving DecidableEq

/-- Placeholder trade used to model `losses[0]` when taking the head of a
list that the surrounding guard proves nonempty. -/
def dummyTrade : Trade := { is_win := true, closed_time := 0 }

/-- Python `int(q)`: truncation toward zero. -/
def pyInt (q : ℚ) : Int := q.num.tdiv q.den

/-- The `recent_count` of revenge pattern 2 (src/rule_engine.py lines 88-92):
how many trades closed strictly within the trailing 30 minutes. -/
def recent_trade_count (now : ℚ) (trades : List Trade) : Nat :=
  (trades.filter fun t => t.closed_time > now - 30 * 60).length

/-- `RuleEngine.check_revenge_pattern` (src/rule_engine.py lines 44-109).
The source's `for pos in positions: if <cond not using pos>: return alert`
is modelled by the equivalent `positions ≠ [] ∧ cond` guard; falling out of
pattern 1 proceeds to pattern 2 exactly as in the source. -/
def check_revenge_pattern (s : Settings) (st : CState) (now : ℚ)
    (trades : List Trade) (positions : List Position) : Option Alert × CState :=
  if trades.length < 2 then (none, st)
  else
    let recent_trades := trades.filter fun t =>
      now - t.closed_time < (s.REVENGE_WINDOW_MINUTES : ℚ) * 60
    let losses := recent_trades.filter fun t => t.is_win = false
    let last_loss_time := (losses.headD dummyTrade).closed_time
    if 2 ≤ recent_trades.length ∧ 2 ≤ losses.length ∧ positions ≠ [] ∧
        now - last_loss_time < 300 then
      let pos0 := positions.headD emptyPosition
      let r := create_alert st now "revenge" pos0 .empty "Quick re-entry after losses"
        (.quickReentry losses.length (pyInt ((now - last_loss_time) / 60))) "warning"
      (some r.1, r.2)
    else
      let recent_count := recent_trade_count now trades
      if 5 ≤ recent_count then
        let r := create_alert st now "revenge" emptyPosition .empty "High frequency trading"
          (.highFrequency recent_count "30 minutes") "warning"
        (some r.1, r.2)
      else (none, st)

/-- The liquidation-distance enrichment of `BinanceClient._enrich_position`
(src/binance_client.py lines 96-100): relative distance of the liquidation
price, with the sentinel 999 when there is no liquidation price. -/
def enrich_liq_distance_pct (mark_price liquidation_price : ℚ) : ℚ :=
  if liquidation_price > 0 then |mark_price - liquidation_price| / mark_price * 100
  else 999

/-- `TelegramBot._calculate_discipline_score` (src/telegram_bot.py lines
335-375) as a pure function of the three 7-day counts it queries:
`clamp(100 - violations*5 + positive_actions*2, 0, 100)` with
`violations = total_alerts - ack_alerts`. -/
def calculate_discipline_score (total_alerts ack_alerts positive_actions : ℕ) : ℤ :=
  let violations : ℤ := (total_alerts : ℤ) - (ack_alerts : ℤ)
  let score : ℤ := 100 - violations * 5 + (positive_actions : ℤ) * 2
  max 0 (min 100 score)

/-- `config.SCORE_TIERS` (src/config.py lines 92-98). -/
def SCORE_TIERS : List (Int × Int × String × String) :=
  [(90, 100, "🏆 Diamond", "Excellent"),
   (75, 89, "💎 Platinum", "Good"),
   (60, 74, "🥈 Silver", "Careful"),
   (40, 59, "🥉 Bronze", "Warning"),
   (0, 39, "⚠️ Alert", "Critical")]

/-- The scan of `config.get_score_tier`: first tier whose inclusive range
holds the score, with the fall-through default of lines 103-106. -/
def tier_match (score : ℚ) : List (Int × Int × String × String) → String × String
  | [] => ("⚠️ Alert", "Critical")
  | (lo, hi, badge, status) :: rest =>
    if (lo : ℚ) ≤ score ∧ score ≤ (hi : ℚ) then (badge, status) else tier_match score rest

/-- `config.get_score_tier` (src/config.py lines 101-106). -/
def get_score_tier (score : ℚ) : String × String := tier_match score SCORE_TIERS

/-- The tiers whose inclusive numeric range contains a given score (used to
state exhaustiveness and non-overlap of `SCORE_TIERS`). -/
def matchingTiers (score : ℚ) : List (Int × Int × String × String) :=
  SCORE_TIERS.filter fun t => decide ((t.1 : ℚ) ≤ score ∧ score ≤ (t.2.1 : ℚ))

/-! Helper lemmas (shared infrastructure, not claim theorems). -/

/-- The cooldown check is false exactly when the key is recorded with a
recent-enough firing time. -/
lemma should_alert_false_iff (st : CState) (s : Settings) (now : ℚ) (r sym : String) :
    should_alert st s now r sym = false ↔
      ∃ t, lookupTime st (mkKey r sym) = some t ∧
        now - t < ((dictGet s.ALERT_COOLDOWNS r 300 : Int) : ℚ) := by
  unfold should_alert
  cases h : lookupTime st (mkKey r sym) with
  | none => simp [h]
  | some t =>
    by_cases hlt : now - t < ((dictGet s.ALERT_COOLDOWNS r 300 : Int) : ℚ) <;>
      simp [h, hlt]

/-- Appending around a separator that occurs in neither prefix is injective. -/
lemma append_sep_inj {α : Type} {c : α} :
    ∀ (l1 l2 : List α) {t1 t2 : List α}, c ∉ l1 → c ∉ l2 →
      l1 ++ c :: t1 = l2 ++ c :: t2 → l1 = l2 ∧ t1 = t2 := by
  intro l1
  induction l1 with
  | nil =>
    intro l2 t1 t2 _ h2 heq
    cases l2 with
    | nil => simpa using heq
    | cons b l2 =>
      simp only [List.nil_append, List.cons_append, List.cons.injEq] at heq
      exact absurd heq.1.symm (by simp at h2; exact fun hb => h2.1 hb.symm)
  | cons a l1 ih =>
    intro l2 t1 t2 h1 h2 heq
    cases l2 with
    | nil =>
      simp only [List.cons_append, List.nil_append, List.cons.injEq] at heq
      exact absurd heq.1 (by simp at h1; exact fun ha => h1.1 ha.symm)
    | cons b l2 =>
      simp only [List.cons_append, List.cons.injEq] at heq
      have hrec := ih l2 (by simp at h1; exact h1.2) (by simp at h2; exact h2.2) heq.2
      exact ⟨by rw [heq.1, hrec.1], hrec.2⟩

/-- The string key `f"{rule_type}:{symbol}"` is injective as long as the rule
names contain no colon (all four rule names in the source are colon-free). -/
lemma mkKey_inj {r1 s1 r2 s2 : String} (h1 : ':' ∉ r1.data) (h2 : ':' ∉ r2.data)
    (heq : mkKey r1 s1 = mkKey r2 s2) : r1 = r2 ∧ s1 = s2 := by
  have hd : r1.data ++ ':' :: s1.data = r2.data ++ ':' :: s2.data := by
    have hcongr := congrArg String.data heq
    simpa [mkKey, String.data_append] using hcongr
  have hres := append_sep_inj r1.data r2.data h1 h2 hd
  exact ⟨String.ext hres.1, String.ext hres.2⟩

/-- Looking up the key just recorded returns the recorded time. -/
lemma lookupTime_update_self (st : CState) (t : ℚ) (r sym : String) :
    lookupTime (update_last_alert_time st t r sym) (mkKey r sym) = some t := by
  simp [update_last_alert_time, lookupTime]

/-! Claim theorems. -/

/-- C2: the discipline score is `clamp(100 - violations*5 + positiveActions*2, 0, 100)`
with `violations = totalAlerts - acknowledgedAlerts`; it always lies in [0,100], and
`score(10,10,0) = 100`, `score(10,0,0) = 50`, `score(40,0,0) = 0`. -/
theorem discipline_score_clamped_and_examples :
    (∀ t a p : ℕ, 0 ≤ calculate_discipline_score t a p ∧
      calculate_discipline_score t a p ≤ 100) ∧
    calculate_discipline_score 10 10 0 = 100 ∧
    calculate_discipline_score 10 0 0 = 50 ∧
    calculate_discipline_score 40 0 0 = 0 := by
  refine ⟨fun t a p => ⟨le_max_left 0 _, max_le (by norm_num) (min_le_left _ _)⟩,
    by decide, by decide, by decide⟩

/-- C7: the revenge-pattern check applies no cooldown suppression of its own:
its alert output is identical under any two cooldown states, so whenever a
pattern condition holds it re-fires regardless of previously recorded alerts. -/
theorem revenge_output_independent_of_cooldown_state (s : Settings) (st1 st2 : CState)
    (now : ℚ) (trades : List Trade) (positions : List Position) :
    (check_revenge_pattern s st1 now trades positions).1 =
      (check_revenge_pattern s st2 now trades positions).1 := by
  simp only [check_revenge_pattern]
  split_ifs <;> rfl

/-- C1: when `riskPct > maxRiskPct` and the (high_risk, symbol) key is out of
cooldown, `check_high_risk` emits exactly one alert; a second evaluation of
the same symbol within the window emits none; and in general the cooldown
check returns false iff a recorded firing for the same (ruleType, symbol) key
lies within that rule's configured cooldown window, and true otherwise. -/
theorem high_risk_fires_once_then_cooldown (s : Settings) (st : CState)
    (now now1 : ℚ) (p p1 : Position)
    (hrisk : p.risk_pct.getD 0 > s.MAX_RISK_PCT)
    (hfire : should_alert st s now "high_risk" p.symbol = true)
    (hsym : p1.symbol = p.symbol)
    (hwin : now1 - now < ((dictGet s.ALERT_COOLDOWNS "high_risk" 300 : Int) : ℚ)) :
    (check_high_risk s st now p).1.isSome = true ∧
    (check_high_risk s (check_high_risk s st now p).2 now1 p1).1 = none ∧
    (∀ st0 now0 r sym, should_alert st0 s now0 r sym = false ↔
      ∃ t, lookupTime st0 (mkKey r sym) = some t ∧
        now0 - t < ((dictGet s.ALERT_COOLDOWNS r 300 : Int) : ℚ)) := by
  have hst2 : (check_high_risk s st now p).2 =
      update_last_alert_time st now "high_risk" p.symbol := by
    simp [check_high_risk, hrisk, hfire, create_alert]
  have hsupp : should_alert (update_last_alert_time st now "high_risk" p.symbol)
      s now1 "high_risk" p1.symbol = false := by
    rw [should_alert_false_iff]
    refine ⟨now, ?_, hwin⟩
    rw [hsym]
    exact lookupTime_update_self st now "high_risk" p.symbol
  refine ⟨by simp [check_high_risk, hrisk, hfire], ?_,
    fun st0 now0 r sym => should_alert_false_iff st0 s now0 r sym⟩
  rw [hst2]
  by_cases hr1 : p1.risk_pct.getD 0 > s.MAX_RISK_PCT <;>
    simp [check_high_risk, hr1, hsupp]

/-- A position snapshot exceeding the default 2% risk limit. -/
def highRiskPos : Position :=
  { emptyPosition with symbol := "BTCUSDT", risk_pct := some 5 }

/-- C1 witness: concrete run of the high-risk rule at risk 5% > 2%, firing at
time 0 and suppressed at time 100 within the 300s window. -/
theorem high_risk_fires_once_then_cooldown_witness :
    (check_high_risk defaultSettings [] 0 highRiskPos).1.isSome = true ∧
    (check_high_risk defaultSettings (check_high_risk defaultSettings [] 0 highRiskPos).2
      100 highRiskPos).1 = none := by
  have h := high_risk_fires_once_then_cooldown defaultSettings [] 0 100 highRiskPos highRiskPos
    (by norm_num [highRiskPos, emptyPosition, defaultSettings])
    (by decide) rfl
    (by norm_num [defaultSettings, dictGet])
  exact ⟨h.1, h.2.1⟩

/-- C3: cooldown suppression is scoped strictly to the composite (ruleType,
symbol) key: recording a firing for one key never changes the cooldown check
of any different key, for rule names containing no colon (as all four source
rule names are). -/
theorem cooldown_scoped_to_composite_key (s : Settings) (st : CState) (now tfire : ℚ)
    (r1 sym1 r2 sym2 : String) (h1 : ':' ∉ r1.data) (h2 : ':' ∉ r2.data)
    (hne : (r1, sym1) ≠ (r2, sym2)) :
    should_alert (update_last_alert_time st tfire r2 sym2) s now r1 sym1 =
      should_alert st s now r1 sym1 := by
  have hkey : mkKey r2 sym2 ≠ mkKey r1 sym1 := by
    intro h
    have hres := mkKey_inj h2 h1 h
    exact hne (by rw [hres.1, hres.2])
  unfold should_alert update_last_alert_time
  simp only [lookupTime, if_neg hkey]

/-- C3 witness: a HighRisk firing for ETHUSDT does not change the HighRisk
cooldown check for BTCUSDT. -/
theorem cooldown_scoped_to_composite_key_witness :
    should_alert (update_last_alert_time [] 0 "high_risk" "ETHUSDT")
        defaultSettings 10 "high_risk" "BTCUSDT" =
      should_alert [] defaultSettings 10 "high_risk" "BTCUSDT" :=
  cooldown_scoped_to_composite_key defaultSettings [] 10 0 "high_risk" "BTCUSDT"
    "high_risk" "ETHUSDT" (by decide) (by decide) (by decide)

/-- C4: a per-position rule whose condition holds but whose (rule, symbol) key
is cooled down returns no alert and leaves the last-fired map unchanged; and
each emitted alert records its firing time exactly once on top of the input
state. -/
theorem suppressed_rules_leave_state_unchanged (s : Settings) (st : CState)
    (now : ℚ) (p : Position) :
    (p.risk_pct.getD 0 > s.MAX_RISK_PCT →
      should_alert st s now "high_risk" p.symbol = false →
      check_high_risk s st now p = (none, st)) ∧
    (p.liq_distance_pct.getD 999 < s.MIN_LIQ_DISTANCE_PCT →
      should_alert st s now "liq_risk" p.symbol = false →
      check_liquidation_risk s st now p = (none, st)) ∧
    (p.has_stop_loss.getD false = false →
      should_alert st s now "no_sl" p.symbol = false →
      check_no_stop_loss s st now p = (none, st)) ∧
    (∀ a st1, check_high_risk s st now p = (some a, st1) →
      st1 = update_last_alert_time st now "high_risk" p.symbol) ∧
    (∀ a st1, check_liquidation_risk s st now p = (some a, st1) →
      st1 = update_last_alert_time st now "liq_risk" p.symbol) ∧
    (∀ a st1, check_no_stop_loss s st now p = (some a, st1) →
      st1 = update_last_alert_time st now "no_sl" p.symbol) := by
  refine ⟨?_, ?_, ?_, ?_, ?_, ?_⟩
  · intro hc hs; simp [check_high_risk, hc, hs]
  · intro hc hs; simp [check_liquidation_risk, hc, hs]
  · intro hc hs; simp [check_no_stop_loss, hc, hs]
  · intro a st1 h
    by_cases hc : p.risk_pct.getD 0 > s.MAX_RISK_PCT
    · by_cases hs : should_alert st s now "high_risk" p.symbol = true
      · simp [check_high_risk, hc, hs, create_alert] at h
        exact h.2.symm
      · rw [Bool.not_eq_true] at hs
        simp [check_high_risk, hc, hs] at h
    · simp [check_high_risk, hc] at h
  · intro a st1 h
    by_cases hc : p.liq_distance_pct.getD 999 < s.MIN_LIQ_DISTANCE_PCT
    · by_cases hs : should_alert st s now "liq_risk" p.symbol = true
      · simp [check_liquidation_risk, hc, hs, create_alert] at h
        exact h.2.symm
      · rw [Bool.not_eq_true] at hs
        simp [check_liquidation_risk, hc, hs] at h
    · simp [check_liquidation_risk, hc] at h
  · intro a st1 h
    by_cases hc : p.has_stop_loss.getD false = false
    · by_cases hs : should_alert st s now "no_sl" p.symbol = true
      · simp [check_no_stop_loss, hc, hs, create_alert] at h
        exact h.2.symm
      · rw [Bool.not_eq_true] at hs
        simp [check_no_stop_loss, hc, hs] at h
    · simp [check_no_stop_loss, hc] at h

/-- A cooldown state in which high_risk:BTCUSDT fired at time 0. -/
def suppressedState : CState := update_last_alert_time [] 0 "high_risk" "BTCUSDT"

/-- C4 witness: at time 10 (inside the 300s high-risk window) a 5%-risk
BTCUSDT snapshot yields no alert and the state is returned untouched. -/
theorem suppressed_rules_leave_state_unchanged_witness :
    check_high_risk defaultSettings suppressedState 10 highRiskPos = (none, suppressedState) := by
  have h := suppressed_rules_leave_state_unchanged defaultSettings suppressedState 10 highRiskPos
  exact h.1 (by norm_num [highRiskPos, emptyPosition, defaultSettings])
    (by norm_num [should_alert, suppressedState, update_last_alert_time, lookupTime,
      dictGet, defaultSettings, highRiskPos, emptyPosition])

/-- The enriched snapshot produced from markPrice 100 and liquidationPrice 0
(no liquidation price set). -/
def liqZeroPosition : Position :=
  { emptyPosition with
      symbol := "BTCUSDT"
      liq_distance_pct := some (enrich_liq_distance_pct 100 0) }

/-- Settings whose liquidation threshold exceeds the 999 sentinel. -/
def bigThresholdSettings : Settings :=
  { defaultSettings with MIN_LIQ_DISTANCE_PCT := 1000 }

/-- C5 counterexample: with `minLiqDistancePct = 1000` the LiqRisk rule does
fire on a liquidationPrice = 0 snapshot, because its sentinel distance 999 is
below that threshold — refuting "never fires regardless of the configured
threshold". -/
theorem liq_sentinel_fires_above_999_threshold :
    (check_liquidation_risk bigThresholdSettings [] 0 liqZeroPosition).1.isSome = true := by
  norm_num [check_liquidation_risk, bigThresholdSettings, defaultSettings, liqZeroPosition,
    emptyPosition, enrich_liq_distance_pct, should_alert, lookupTime, create_alert]

/-- C5 amended: `liqDistancePct` is |mark - liq| / mark * 100 (so 5.0 at
markPrice 100, liquidationPrice 95); at liquidationPrice 0 the sentinel 999
is stored instead, so LiqRisk never fires for such a snapshot whenever the
configured threshold is at most 999 (as the default 5.0 is). -/
theorem liq_distance_formula_and_sentinel (s : Settings) (st : CState) (now : ℚ)
    (p : Position) (mark : ℚ)
    (hth : s.MIN_LIQ_DISTANCE_PCT ≤ 999)
    (hp : p.liq_distance_pct = some (enrich_liq_distance_pct mark 0)) :
    enrich_liq_distance_pct 100 95 = 5 ∧
    check_liquidation_risk s st now p = (none, st) := by
  have h999 : enrich_liq_distance_pct mark 0 = 999 := by
    norm_num [enrich_liq_distance_pct]
  have hnl : ¬ (p.liq_distance_pct.getD 999 < s.MIN_LIQ_DISTANCE_PCT) := by
    rw [hp, h999]
    simp only [Option.getD_some]
    exact not_lt.mpr hth
  exact ⟨by norm_num [enrich_liq_distance_pct], by simp [check_liquidation_risk, hnl]⟩

/-- C5 witness: under the default threshold 5.0 the liquidationPrice = 0
snapshot produces no LiqRisk alert. -/
theorem liq_distance_formula_and_sentinel_witness :
    check_liquidation_risk defaultSettings [] 0 liqZeroPosition = (none, []) := by
  have h := liq_distance_formula_and_sentinel defaultSettings [] 0 liqZeroPosition 100
    (by norm_num [defaultSettings]) rfl
  exact h.2

/-- C6 counterexample: the score 89.5 = 179/2 lies in [0,100] but is matched
by none of the five tier ranges; `get_score_tier` reaches it only through the
fall-through default, so the ranges are not exhaustive over all of [0,100]. -/
theorem score_tiers_gap_at_fractional_score :
    0 ≤ mkRat 179 2 ∧ mkRat 179 2 ≤ 100 ∧
    (matchingTiers (mkRat 179 2)).length = 0 ∧
    get_score_tier (mkRat 179 2) = ("⚠️ Alert", "Critical") := by decide

/-- C6 amended: over the integer scores of [0,100] — all the discipline
calculator can produce — the five tier ranges are exhaustive and
non-overlapping, with [90,100] the top tier and [0,39] the lowest. -/
theorem score_tiers_partition_integers :
    ∀ n : ℕ, n ≤ 100 →
      (matchingTiers (n : ℚ)).length = 1 ∧
      (90 ≤ n → get_score_tier (n : ℚ) = ("🏆 Diamond", "Excellent")) ∧
      (n ≤ 39 → get_score_tier (n : ℚ) = ("⚠️ Alert", "Critical")) := by decide

/-- C6 witness: score 95 lies in exactly one range and gets the top tier. -/
theorem score_tiers_partition_integers_witness :
    (matchingTiers ((95 : ℕ) : ℚ)).length = 1 ∧
    get_score_tier ((95 : ℕ) : ℚ) = ("🏆 Diamond", "Excellent") := by
  have h := score_tiers_partition_integers 95 (by decide)
  exact ⟨h.1, h.2.1 (by decide)⟩

/-- The alert produced by the revenge "High frequency trading" pattern. -/
def highFreqAlert (now : ℚ) (count : ℕ) : Alert :=
  { rule_type := "revenge"
    severity := "warning"
    pattern_type := "High frequency trading"
    suggestion := .empty
    details := .highFrequency count "30 minutes"
    symbol := ""
    side := ""
    entry_price := 0
    risk_pct := 0
    liq_distance_pct := 0
    has_stop_loss := false
    triggered_at := now }

/-- C8: with fewer than 2 trade records the revenge check reports no pattern;
with no open positions (so the quick-re-entry pattern cannot match), the
high-frequency pattern fires exactly when at least 5 trades closed within the
trailing 30 minutes — carrying details {tradeCount, "30 minutes"} — and stays
silent below 5 (in particular it fires at 5 and not at 4). -/
theorem revenge_high_frequency_at_five (s : Settings) (st : CState) (now : ℚ)
    (trades : List Trade) :
    (∀ (tr : List Trade) (ps : List Position), tr.length < 2 →
      (check_revenge_pattern s st now tr ps).1 = none) ∧
    (5 ≤ recent_trade_count now trades →
      (check_revenge_pattern s st now trades []).1 =
        some (highFreqAlert now (recent_trade_count now trades))) ∧
    (recent_trade_count now trades < 5 →
      (check_revenge_pattern s st now trades []).1 = none) := by
  have hc : recent_trade_count now trades ≤ trades.length := by
    unfold recent_trade_count
    exact List.length_filter_le _ _
  refine ⟨?_, ?_, ?_⟩
  · intro tr ps h
    simp [check_revenge_pattern, h]
  · intro h5
    have hlen : ¬ (trades.length < 2) := by omega
    simp [check_revenge_pattern, hlen, h5, create_alert, highFreqAlert, emptyPosition]
  · intro h4
    by_cases hlen : trades.length < 2
    · simp [check_revenge_pattern, hlen]
    · have hn5 : ¬ (5 ≤ recent_trade_count now trades) := by omega
      simp [check_revenge_pattern, hlen, hn5]

/-- Five trades all closed within the last 30 minutes of time 1000. -/
def trades5 : List Trade :=
  [⟨true, 1000⟩, ⟨false, 900⟩, ⟨true, 800⟩, ⟨false, 700⟩, ⟨true, 600⟩]

/-- Four trades all closed within the last 30 minutes of time 1000. -/
def trades4 : List Trade :=
  [⟨true, 1000⟩, ⟨false, 900⟩, ⟨true, 800⟩, ⟨false, 700⟩]

/-- C8 witness: at 5 recent trades the high-frequency alert fires; at 4 the
check stays silent. -/
theorem revenge_high_frequency_at_five_witness :
    (check_revenge_pattern defaultSettings [] 1000 trades5 []).1 =
      some (highFreqAlert 1000 (recent_trade_count 1000 trades5)) ∧
    (check_revenge_pattern defaultSettings [] 1000 trades4 []).1 = none := by
  have h5 := revenge_high_frequency_at_five defaultSettings [] 1000 trades5
  have h4 := revenge_high_frequency_at_five defaultSettings [] 1000 trades4
  constructor
  · refine h5.2.1 ?_
    simp only [recent_trade_count, trades5, List.filter_cons, List.filter_nil,
      decide_eq_true_eq]
    norm_num
  · refine h4.2.2 ?_
    simp only [recent_trade_count, trades4, List.filter_cons, List.filter_nil,
      decide_eq_true_eq]
    norm_num

/-- Long position at entry 100 with risk 2% and no stop loss. -/
def slLongPos : Position :=
  { emptyPosition with
      symbol := "BTCUSDT"
      side := some "Long"
      entry_price := some 100
      risk_pct := some 2 }

/-- Short variant of `slLongPos`. -/
def slShortPos : Position := { slLongPos with side := some "Short" }

/-- C9: NoStopLoss fires when hasStopLoss is false (cooldown permitting); its
suggested stop price is entry * (1 - risk/100) for Long and
entry * (1 + risk/100) otherwise, using the position's own risk; at entry 100
and risk 2 the suggestion is 98 for Long and 102 for Short. -/
theorem no_stop_loss_directional_suggestion (s : Settings) (st : CState)
    (now : ℚ) (p : Position)
    (hsl : p.has_stop_loss.getD false = false)
    (hc : should_alert st s now "no_sl" p.symbol = true) :
    (check_no_stop_loss s st now p).1 =
      some { rule_type := "no_sl"
             severity := "warning"
             pattern_type := ""
             suggestion := .setStopLoss (suggested_sl_price p) (p.risk_pct.getD 2)
             details := .empty
             symbol := p.symbol
             side := p.side_normalized.getD ""
             entry_price := p.entry_price.getD 0
             risk_pct := p.risk_pct.getD 0
             liq_distance_pct := p.liq_distance_pct.getD 0
             has_stop_loss := p.has_stop_loss.getD false
             triggered_at := now } ∧
    (p.side.getD "Long" = "Long" →
      suggested_sl_price p = p.entry_price.getD 0 * (1 - p.risk_pct.getD 2 / 100)) ∧
    (p.side.getD "Long" ≠ "Long" →
      suggested_sl_price p = p.entry_price.getD 0 * (1 + p.risk_pct.getD 2 / 100)) ∧
    suggested_sl_price slLongPos = 98 ∧
    suggested_sl_price slShortPos = 102 := by
  refine ⟨?_, ?_, ?_, ?_, ?_⟩
  · simp [check_no_stop_loss, hsl, hc, create_alert]
  · intro h; simp [suggested_sl_price, h]
  · intro h; simp [suggested_sl_price, h]
  · norm_num [suggested_sl_price, slLongPos, emptyPosition]
  · norm_num [suggested_sl_price, slShortPos, slLongPos, emptyPosition]
    decide

/-- C9 witness: the Long example position triggers a NoStopLoss alert. -/
theorem no_stop_loss_directional_suggestion_witness :
    (check_no_stop_loss defaultSettings [] 0 slLongPos).1.isSome = true := by
  have h := no_stop_loss_directional_suggestion defaultSettings [] 0 slLongPos rfl (by decide)
  rw [h.1]
  rfl

/-- C10: missing optional snapshot fields take fixed defaults: an absent
risk_pct acts as 0 (so HighRisk cannot fire under a non-negative threshold),
an absent liq_distance_pct acts as 999, and an absent has_stop_loss acts as
false, so a snapshot merely lacking that key triggers NoStopLoss when its
cooldown permits. -/
theorem missing_fields_take_defaults (s : Settings) (st : CState) (now : ℚ)
    (p : Position) :
    (p.risk_pct = none → 0 ≤ s.MAX_RISK_PCT →
      check_high_risk s st now p = (none, st)) ∧
    (p.risk_pct = none →
      check_high_risk s st now p =
        check_high_risk s st now { p with risk_pct := some 0 }) ∧
    (p.liq_distance_pct = none →
      (check_liquidation_risk s st now p).1.isSome =
        (check_liquidation_risk s st now { p with liq_distance_pct := some 999 }).1.isSome ∧
      (check_liquidation_risk s st now p).2 =
        (check_liquidation_risk s st now { p with liq_distance_pct := some 999 }).2) ∧
    (p.has_stop_loss = none →
      check_no_stop_loss s st now p =
        check_no_stop_loss s st now { p with has_stop_loss := some false }) ∧
    (p.has_stop_loss = none → should_alert st s now "no_sl" p.symbol = true →
      (check_no_stop_loss s st now p).1.isSome = true) := by
  refine ⟨?_, ?_, ?_, ?_, ?_⟩
  · intro hn hth
    have hng : ¬ (p.risk_pct.getD 0 > s.MAX_RISK_PCT) := by
      rw [hn]
      simpa using not_lt.mpr hth
    simp [check_high_risk, hng]
  · intro hn; simp [check_high_risk, create_alert, hn]
  · intro hn
    by_cases h1 : (999 : ℚ) < s.MIN_LIQ_DISTANCE_PCT
    · by_cases h2 : should_alert st s now "liq_risk" p.symbol = true <;>
        simp [check_liquidation_risk, create_alert, hn, h1, h2]
    · simp [check_liquidation_risk, hn, h1]
  · intro hn; simp [check_no_stop_loss, create_alert, suggested_sl_price, hn]
  · intro hn hc; simp [check_no_stop_loss, hn, hc]

/-- A snapshot that merely lacks the has_stop_loss key. -/
def noSlFieldPos : Position := { emptyPosition with symbol := "BTCUSDT" }

/-- C10 witness: the snapshot without a has_stop_loss key fires NoStopLoss on
a fresh cooldown state. -/
theorem missing_fields_take_defaults_witness :
    (check_no_stop_loss defaultSettings [] 0 noSlFieldPos).1.isSome = true := by
  have h := missing_fields_take_defaults defaultSettings [] 0 noSlFieldPos
  exact h.2.2.2.2 rfl (by decide)

end Jarvis
